import Mathlib

set_option linter.unusedVariables false

/-
Shallow embedding of the sst-cpputils memory-management core:
  src/include/sst/cpputils/aligned_allocator.h  (AlignedAllocator)
  src/include/sst/cpputils/dyn_array.h          (DynArray)

The C++ heap is modelled as a list of allocated blocks, each a list of
slots; a slot is either a live constructed element (some v) or raw
uninitialized storage (none).  A DynArray object is its two data members:
mem_ (a nullable block id) and n_ (the element count field).  The
allocator member alloc_ is stateless for both std::allocator and
AlignedAllocator (is_always_equal), so it carries no model state.

Exception paths are modelled by fault-injection parameters: a Bool saying
whether allocate succeeds, and an Option Nat naming the element index
whose construction / copy-construction throws.  Each embedded member
function returns the heap and object state exactly as the C++ leaves them
when the exception escapes, so the post-failure state is observable.
-/

namespace SstCpputils

variable {T : Type}

/-- Exceptions thrown by the two headers: std::bad_alloc from
AlignedAllocator::allocate, a user element-constructor failure that the
container re-signals, std::domain_error and std::out_of_range from
DynArray's access checks, and a marker for undefined behavior (reading a
raw or freed slot), which the C++ has no defined result for. -/
inductive CppError where
  | bad_alloc : CppError
  | ctor_fail : CppError
  | domain_error : String → CppError
  | out_of_range : String → CppError
  | undefined : CppError
deriving DecidableEq

/-- Classifier for the out-of-range exception kind (std::out_of_range). -/
def CppError.isOutOfRange : CppError → Bool
  | .out_of_range _ => true
  | _ => false

/-- One slot of raw storage: some v is a live constructed element, none is
uninitialized bytes. -/
abbrev Slot (T : Type) := Option T

/-- The allocator-side heap: every currently allocated block, keyed by a
block id, plus the next fresh id. -/
structure Heap (T : Type) where
  blocks : List (Nat × List (Slot T))
  next : Nat
deriving DecidableEq

/-- First block with the given id in a block list, if any. -/
def findBlock (l : List (Nat × List (Slot T))) (id : Nat) : Option (List (Slot T)) :=
  match l with
  | [] => none
  | b :: t => if b.1 = id then some b.2 else findBlock t id

/-- Remove every block with the given id from a block list. -/
def removeBlock (l : List (Nat × List (Slot T))) (id : Nat) :
    List (Nat × List (Slot T)) :=
  match l with
  | [] => []
  | b :: t => if b.1 = id then removeBlock t id else b :: removeBlock t id

/-- Overwrite the slots of every block with the given id. -/
def setBlockL (l : List (Nat × List (Slot T))) (id : Nat) (s : List (Slot T)) :
    List (Nat × List (Slot T)) :=
  match l with
  | [] => []
  | b :: t =>
    if b.1 = id then (id, s) :: setBlockL t id s else b :: setBlockL t id s

/-- All block ids in the list are below m. -/
def blocksBelow (l : List (Nat × List (Slot T))) (m : Nat) : Bool :=
  match l with
  | [] => true
  | b :: t => decide (b.1 < m) && blocksBelow t m

/-- Obtain a fresh block of n raw slots (the effect of allocate(n) when it
succeeds). Returns the new heap and the block id. -/
def Heap.alloc (h : Heap T) (n : Nat) : Heap T × Nat :=
  (⟨h.blocks ++ [(h.next, List.replicate n none)], h.next + 1⟩, h.next)

/-- Release a block (the effect of deallocate(p, n)). -/
def Heap.free (h : Heap T) (id : Nat) : Heap T :=
  ⟨removeBlock h.blocks id, h.next⟩

/-- The slots of a block, if that block is currently allocated. -/
def Heap.lookup (h : Heap T) (id : Nat) : Option (List (Slot T)) :=
  findBlock h.blocks id

/-- Overwrite the slots of an allocated block. -/
def Heap.setBlock (h : Heap T) (id : Nat) (s : List (Slot T)) : Heap T :=
  ⟨setBlockL h.blocks id s, h.next⟩

/-- Well-formedness: every allocated block id is below the fresh counter. -/
def Heap.wfB (h : Heap T) : Bool :=
  blocksBelow h.blocks h.next

/-- The two data members of DynArray (dyn_array.h lines 150-152): mem_ is
the storage pointer (none = nullptr, some id = a block id) and n is the
n_ count field. -/
structure DynArray (T : Type) where
  mem : Option Nat
  n : Nat
deriving DecidableEq

/-- Destroy the first n slots of a block, as deallocate's destroy loop
does; destroying an already-raw slot is UB in C++, modelled as erasure. -/
def destroyN (slots : List (Slot T)) (n : Nat) : List (Slot T) :=
  ((slots.take n).map (fun _ => (none : Slot T))) ++ slots.drop n

/-- DynArray::deallocate, dyn_array.h lines 322-332: if mem_ is null do
nothing; otherwise destroy the first n_ elements of the block and release
it.  Note that mem_ and n_ themselves are NOT modified. -/
def DynArray.deallocate (h : Heap T) (a : DynArray T) : Heap T :=
  match a.mem with
  | none => h
  | some id =>
    let h1 := match Heap.lookup h id with
      | some slots => Heap.setBlock h id (destroyN slots a.n)
      | none => h
    Heap.free h1 id

/-- DynArray::size, line 130. -/
def DynArray.size (a : DynArray T) : Nat := a.n

/-- DynArray::empty, line 131. -/
def DynArray.empty (a : DynArray T) : Bool := a.n == 0

def uninitMsg : String := "uninitialized DynArray"

/-- The message built at dyn_array.h lines 318-319 for the out_of_range
exception: it names the offending index and the current size. -/
def rangeMsg (i n : Nat) : String :=
  "elt " ++ toString i ++ ", size " ++ toString n

/-- DynArray::check_range, lines 313-320: a null mem_ throws
std::domain_error with a fixed message; otherwise an index at or past n_
throws std::out_of_range carrying the index and the size. -/
def DynArray.check_range (a : DynArray T) (i : Nat) : Option CppError :=
  if a.mem = none then some (CppError.domain_error uninitMsg)
  else if i ≥ a.n then some (CppError.out_of_range (rangeMsg i a.n))
  else none

/-- Read mem_[i]: defined only for a live slot of an allocated block. -/
def readSlot (h : Heap T) (a : DynArray T) (i : Nat) : Except CppError T :=
  match a.mem with
  | none => .error CppError.undefined
  | some id =>
    match Heap.lookup h id with
    | none => .error CppError.undefined
    | some slots =>
      match slots[i]? with
      | some (some v) => .ok v
      | _ => .error CppError.undefined

/-- DynArray::operator[], lines 246-258: check_range then mem_[i]. -/
def DynArray.getIdx (h : Heap T) (a : DynArray T) (i : Nat) : Except CppError T :=
  match DynArray.check_range a i with
  | some e => .error e
  | none => readSlot h a i

/-- DynArray::at, lines 260-272: identical to operator[] — check_range
then mem_[i]. -/
def DynArray.atIdx (h : Heap T) (a : DynArray T) (i : Nat) : Except CppError T :=
  match DynArray.check_range a i with
  | some e => .error e
  | none => readSlot h a i

/-- DynArray::front, lines 274-286: throws std::domain_error when
empty(), else returns mem_[0]. -/
def DynArray.front (h : Heap T) (a : DynArray T) : Except CppError T :=
  if DynArray.empty a then .error (CppError.domain_error uninitMsg)
  else readSlot h a 0

/-- DynArray::back, lines 288-300: throws std::domain_error when
empty(), else returns mem_[n_ - 1]. -/
def DynArray.back (h : Heap T) (a : DynArray T) : Except CppError T :=
  if DynArray.empty a then .error (CppError.domain_error uninitMsg)
  else readSlot h a (a.n - 1)

/-- The abstract value of an array: the list of its live elements, when
its n_ slots are all live in an allocated block (or when mem_ is null and
n_ = 0, the empty state, with no elements). -/
def DynArray.elems (h : Heap T) (a : DynArray T) : Option (List T) :=
  match a.mem with
  | none => if a.n = 0 then some [] else none
  | some id =>
    match Heap.lookup h id with
    | none => none
    | some slots =>
      if a.n ≤ slots.length then (slots.take a.n).mapM (fun s => s)
      else none

/-- Invariant 1 of the spec data model, over the embedded state: either
mem_ is null and n_ = 0, or mem_ names an allocated block of exactly n_
slots, all live. -/
def DynArray.invB (h : Heap T) (a : DynArray T) : Bool :=
  match a.mem with
  | none => a.n == 0
  | some id =>
    match Heap.lookup h id with
    | none => false
    | some slots => slots.length == a.n && slots.all (fun s => s.isSome)

/-- Slots after constructing elements 0..k-1 of a block of len slots and
stopping (construction of element k threw): a live front part of k
elements, the rest raw. -/
def liveUpTo (len k : Nat) (v : T) : List (Slot T) :=
  List.replicate k (some v) ++ List.replicate (len - k) none

/-- The sized constructor, dyn_array.h lines 155-166: mem_ = allocate(n),
then a plain loop constructs each slot from the forwarded arguments
(modelled by the value v).  allocOk = false models allocate throwing
(nothing was allocated, nothing leaks); failAt = some k with k < n models
the construction of element k throwing.  The loop has NO try/catch: the
exception escapes the constructor with elements 0..k-1 still live in the
still-allocated block, and no destructor ever runs for them (the object's
lifetime never began). -/
def mkSized (h : Heap T) (n : Nat) (v : T) (allocOk : Bool) (failAt : Option Nat) :
    Heap T × Except CppError (DynArray T) :=
  if allocOk = false then (h, .error CppError.bad_alloc)
  else
    let p := Heap.alloc h n
    match failAt with
    | some k =>
      if k < n then
        (Heap.setBlock p.1 p.2 (liveUpTo n k v), .error CppError.ctor_fail)
      else
        (Heap.setBlock p.1 p.2 (List.replicate n (some v)), .ok ⟨some p.2, n⟩)
    | none =>
      (Heap.setBlock p.1 p.2 (List.replicate n (some v)), .ok ⟨some p.2, n⟩)

/-- The range constructor, dyn_array.h lines 207-222: n_ =
std::distance(first, last) (here vals.length), mem_ = allocate(n_), then
std::uninitialized_copy inside a try block.  If the copy construction of
element k throws, uninitialized_copy destroys the k elements it already
constructed, the catch releases the block with deallocate(mem_, n_), and
the exception is rethrown. -/
def mkFromRange (h : Heap T) (vals : List T) (allocOk : Bool) (failAt : Option Nat) :
    Heap T × Except CppError (DynArray T) :=
  if allocOk = false then (h, .error CppError.bad_alloc)
  else
    let p := Heap.alloc h vals.length
    match failAt with
    | some k =>
      if k < vals.length then
        let h2 := Heap.setBlock p.1 p.2 (List.replicate vals.length none)
        (Heap.free h2 p.2, .error CppError.ctor_fail)
      else
        (Heap.setBlock p.1 p.2 (vals.map some), .ok ⟨some p.2, vals.length⟩)
    | none =>
      (Heap.setBlock p.1 p.2 (vals.map some), .ok ⟨some p.2, vals.length⟩)

/-- std::uninitialized_copy over our slot model when it runs to
completion: copy-constructs each source slot's value in order; reading a
raw source slot is UB, modelled as none. -/
def uninitCopyVals (src : List (Slot T)) : Option (List (Slot T)) :=
  if src.all (fun s => s.isSome) then some src else none

/-- Copy assignment, dyn_array.h lines 176-187, for a source distinct
from the destination.  Line by line: deallocate() destroys the
destination's elements and frees its block (mem_/n_ keep their old
values); mem_ = that.mem_; alloc_ is re-selected (stateless here); n_ =
that.n_; mem_ = allocate(n_); std::uninitialized_copy copies the source
elements — with NO try/catch around it.  allocOk = false models allocate
throwing: the destination is left with mem_ aliasing the source's block.
failAt = some k with k < that.n_ models the copy of element k throwing:
uninitialized_copy destroys the k copies it made and the exception
escapes, leaving the destination with mem_ = the fresh block (all slots
raw, still allocated) and n_ = that.n_. -/
def DynArray.copyAssign (h : Heap T) (dst src : DynArray T)
    (allocOk : Bool) (failAt : Option Nat) : Heap T × DynArray T × Option CppError :=
  let h1 := DynArray.deallocate h dst
  let d1 : DynArray T := { dst with mem := src.mem }
  let d2 : DynArray T := { d1 with n := src.n }
  if allocOk = false then (h1, d2, some CppError.bad_alloc)
  else
    let p := Heap.alloc h1 src.n
    let d3 : DynArray T := { d2 with mem := some p.2 }
    match failAt with
    | some k =>
      if k < src.n then
        (Heap.setBlock p.1 p.2 (List.replicate src.n none), d3, some CppError.ctor_fail)
      else
        let srcSlots := match src.mem with
          | none => []
          | some sid => (Heap.lookup p.1 sid).getD []
        match uninitCopyVals (srcSlots.take src.n) with
        | some vals => (Heap.setBlock p.1 p.2 vals, d3, none)
        | none => (p.1, d3, some CppError.undefined)
    | none =>
      let srcSlots := match src.mem with
        | none => []
        | some sid => (Heap.lookup p.1 sid).getD []
      match uninitCopyVals (srcSlots.take src.n) with
      | some vals => (Heap.setBlock p.1 p.2 vals, d3, none)
      | none => (p.1, d3, some CppError.undefined)

/-- Copy assignment, dyn_array.h lines 176-187, executed as a = a (that
aliases *this), with every field read reading the single object's current
state: deallocate() destroys a's elements and frees its block; mem_ =
that.mem_ and n_ = that.n_ are self-assignments; mem_ = allocate(n_)
installs a fresh raw block; then uninitialized_copy(that.begin(),
that.end(), mem_) reads that.begin() = the CURRENT mem_, i.e. the fresh
block itself, so every copy reads a raw slot: UB, and the original
values are already gone. -/
def DynArray.copyAssignSelf (h : Heap T) (a : DynArray T) :
    Heap T × DynArray T × Option CppError :=
  let h1 := DynArray.deallocate h a
  let a1 : DynArray T := { a with mem := a.mem }
  let a2 : DynArray T := { a1 with n := a1.n }
  let p := Heap.alloc h1 a2.n
  let a3 : DynArray T := { a2 with mem := some p.2 }
  let srcSlots := (Heap.lookup p.1 p.2).getD []
  match uninitCopyVals (srcSlots.take a3.n) with
  | some vals => (Heap.setBlock p.1 p.2 vals, a3, none)
  | none => (p.1, a3, some CppError.undefined)

/-- Move constructor, dyn_array.h lines 224-230: copies the allocator,
takes the source's mem_ and n_, and nulls/zeroes the source.  Returns
(the new object, the source after the move).  The heap is untouched: a
pure pointer/count handover, no element is copied. -/
def DynArray.moveCtor (a : DynArray T) : DynArray T × DynArray T :=
  (⟨a.mem, a.n⟩, ⟨none, 0⟩)

/-- Move assignment, dyn_array.h lines 232-242: deallocate() first
destroys the destination's elements and frees its block, then the
allocator is copied and mem_/n_ are taken from the source, which is
nulled/zeroed.  Returns (heap, new destination, source after move). -/
def DynArray.moveAssign (h : Heap T) (dst src : DynArray T) :
    Heap T × DynArray T × DynArray T :=
  (DynArray.deallocate h dst, ⟨src.mem, src.n⟩, ⟨none, 0⟩)

/-- DynArray::reset, dyn_array.h lines 302-311: deallocate() destroys the
old elements and frees the old block (leaving mem_ pointing at it); n_ =
n; mem_ = allocate(n_); then a loop default-constructs each slot
(modelled by the default value d), with NO try/catch.  allocOk = false
models allocate throwing: mem_ still holds the old, freed pointer and n_
= n.  failAt = some k with k < n models the default construction of
element k throwing: mem_ = the fresh block with only elements 0..k-1
live, n_ = n. -/
def DynArray.reset (h : Heap T) (a : DynArray T) (n : Nat) (d : T)
    (allocOk : Bool) (failAt : Option Nat) : Heap T × DynArray T × Option CppError :=
  let h1 := DynArray.deallocate h a
  let a1 : DynArray T := { a with n := n }
  if allocOk = false then (h1, a1, some CppError.bad_alloc)
  else
    let p := Heap.alloc h1 n
    let a2 : DynArray T := { a1 with mem := some p.2 }
    match failAt with
    | some k =>
      if k < n then
        (Heap.setBlock p.1 p.2 (liveUpTo n k d), a2, some CppError.ctor_fail)
      else
        (Heap.setBlock p.1 p.2 (List.replicate n (some d)), a2, none)
    | none =>
      (Heap.setBlock p.1 p.2 (List.replicate n (some d)), a2, none)

/-- AlignedAllocator::operator==, aligned_allocator.h lines 79-83: the
comparison is between the two instantiations' alignment arguments only;
the value-type arguments (modelled as the two Type parameters) do not
enter the body. -/
def alignedAllocEq (value_t value_t2 : Type) (alignment alignment2 : Nat) : Bool :=
  alignment == alignment2

/-- AlignedAllocator::operator!=, aligned_allocator.h lines 85-89. -/
def alignedAllocNe (value_t value_t2 : Type) (alignment alignment2 : Nat) : Bool :=
  alignment != alignment2

/-- AlignedAllocator::allocate, aligned_allocator.h lines 55-67.
sizeofT = sizeof(value_type) and sizeMax = the maximum of size_type;
max_size = sizeMax / sizeofT, and n > max_size throws std::bad_alloc.
Otherwise bytes_to_allocate = n * sizeofT is handed to operator new;
alignLEDefault selects between the plain and the alignment-aware
operator new, both of which receive the same byte count.  Returns the
byte count requested. -/
def alignedAllocate (sizeofT sizeMax n : Nat) (alignLEDefault : Bool) :
    Except CppError Nat :=
  let max_size := sizeMax / sizeofT
  if n > max_size then .error CppError.bad_alloc
  else
    let bytes_to_allocate := n * sizeofT
    if alignLEDefault then .ok bytes_to_allocate
    else .ok bytes_to_allocate

instance instDecEqExcept {ε α : Type} [DecidableEq ε] [DecidableEq α] :
    DecidableEq (Except ε α)
  | Except.error e, Except.error f =>
    if h : e = f then Decidable.isTrue (congrArg Except.error h)
    else Decidable.isFalse (fun hc => h (Except.error.inj hc))
  | Except.error e, Except.ok b => Decidable.isFalse (fun hc => Except.noConfusion hc)
  | Except.ok a, Except.error f => Decidable.isFalse (fun hc => Except.noConfusion hc)
  | Except.ok a, Except.ok b =>
    if h : a = b then Decidable.isTrue (congrArg Except.ok h)
    else Decidable.isFalse (fun hc => h (Except.ok.inj hc))

/-- Removing block i from a block list does not change the result of
looking up a different id j. -/
theorem findBlock_removeBlock_ne (l : List (Nat × List (Slot T))) (i j : Nat)
    (hne : i ≠ j) : findBlock (removeBlock l i) j = findBlock l j := by
  induction l with
  | nil => rfl
  | cons b t ih =>
    by_cases hb : b.1 = i
    · have hbj : ¬b.1 = j := by omega
      simp [removeBlock, findBlock, hb, hbj, hne, ih]
    · by_cases hj : b.1 = j
      · simp [removeBlock, findBlock, hb, hj, Ne.symm hne]
      · simp [removeBlock, findBlock, hb, hj, ih]

/-- Overwriting the slots of block i does not change the result of
looking up a different id j. -/
theorem findBlock_setBlockL_ne (l : List (Nat × List (Slot T))) (i j : Nat)
    (s : List (Slot T)) (hne : i ≠ j) :
    findBlock (setBlockL l i s) j = findBlock l j := by
  induction l with
  | nil => rfl
  | cons b t ih =>
    by_cases hb : b.1 = i
    · have hij : ¬i = j := hne
      simp [setBlockL, findBlock, hb, hij, ih]
    · by_cases hj : b.1 = j
      · simp [setBlockL, findBlock, hb, hj, Ne.symm hne]
      · simp [setBlockL, findBlock, hb, hj, ih]

theorem Heap.lookup_free_ne (h : Heap T) (i j : Nat) (hne : i ≠ j) :
    (Heap.free h i).lookup j = h.lookup j := by
  unfold Heap.free Heap.lookup
  exact findBlock_removeBlock_ne _ _ _ hne

theorem Heap.lookup_setBlock_ne (h : Heap T) (i j : Nat) (s : List (Slot T))
    (hne : i ≠ j) :
    (Heap.setBlock h i s).lookup j = h.lookup j := by
  unfold Heap.setBlock Heap.lookup
  exact findBlock_setBlockL_ne _ _ _ _ hne

/-- deallocate only touches the destination's own block: lookups of any
other block id are unchanged. -/
theorem lookup_deallocate_ne (h : Heap T) (a : DynArray T) (j : Nat)
    (hne : a.mem ≠ some j) :
    Heap.lookup (DynArray.deallocate h a) j = Heap.lookup h j := by
  unfold DynArray.deallocate
  cases hm : a.mem with
  | none => rfl
  | some i =>
    have hij : i ≠ j := by
      intro he
      exact hne (by rw [hm, he])
    cases hl : Heap.lookup h i with
    | none => simp only [hl]; exact Heap.lookup_free_ne h i j hij
    | some slots =>
      simp only [hl]
      rw [Heap.lookup_free_ne _ _ _ hij, Heap.lookup_setBlock_ne _ _ _ _ hij]

/-- The abstract element list only depends on the heap through the
array's own block. -/
theorem elems_congr (h h2 : Heap T) (a : DynArray T)
    (hl : ∀ id, a.mem = some id → Heap.lookup h2 id = Heap.lookup h id) :
    DynArray.elems h2 a = DynArray.elems h a := by
  cases hm : a.mem with
  | none => simp [DynArray.elems, hm]
  | some id => simp [DynArray.elems, hm, hl id hm]

/-- Appending a fresh block, overwriting its slots and then removing it
restores the original block list, when every original id is smaller. -/
theorem removeBlock_setBlockL_fresh (l : List (Nat × List (Slot T))) (m : Nat)
    (r s : List (Slot T)) (hlt : blocksBelow l m = true) :
    removeBlock (setBlockL (l ++ [(m, r)]) m s) m = l := by
  induction l with
  | nil => simp [setBlockL, removeBlock]
  | cons b t ih =>
    simp only [blocksBelow, Bool.and_eq_true, decide_eq_true_eq] at hlt
    have hb : ¬b.1 = m := by omega
    simp [setBlockL, removeBlock, hb, ih hlt.2]

/-- Allocating a fresh block, overwriting its slots and then releasing it
restores the original block list of a well-formed heap. -/
theorem blocks_fresh_set_free (h : Heap T) (len : Nat) (s : List (Slot T))
    (hwf : Heap.wfB h = true) :
    (Heap.free (Heap.setBlock (Heap.alloc h len).1 (Heap.alloc h len).2 s)
      (Heap.alloc h len).2).blocks = h.blocks := by
  unfold Heap.wfB at hwf
  exact removeBlock_setBlockL_fresh _ _ _ _ hwf

/-- C6: move construction and move assignment are O(1) pointer/count
handovers (the returned object takes the source's mem_/n_ verbatim and
the heap's element blocks are untouched except for the destination's own
released block): afterwards the source is in the empty/uninitialized
state (null pointer, size zero, size() = 0, front() raises the
empty-state domain_error) and the destination holds exactly the elements
the source held, in order; move assignment first destroys the
destination's existing elements and releases its block (the deallocate()
call) before taking ownership. -/
theorem c6_move_semantics (h : Heap T) (dst src : DynArray T)
    (hsep : dst.mem = none ∨ dst.mem ≠ src.mem) :
    DynArray.moveCtor src = (⟨src.mem, src.n⟩, ⟨none, 0⟩)
    ∧ DynArray.size (DynArray.moveCtor src).2 = 0
    ∧ DynArray.front h (DynArray.moveCtor src).2
        = .error (CppError.domain_error uninitMsg)
    ∧ DynArray.elems h (DynArray.moveCtor src).1 = DynArray.elems h src
    ∧ (DynArray.moveAssign h dst src).1 = DynArray.deallocate h dst
    ∧ (DynArray.moveAssign h dst src).2.1 = ⟨src.mem, src.n⟩
    ∧ (DynArray.moveAssign h dst src).2.2 = ⟨none, 0⟩
    ∧ DynArray.elems (DynArray.moveAssign h dst src).1
        (DynArray.moveAssign h dst src).2.1 = DynArray.elems h src
    ∧ DynArray.front (DynArray.moveAssign h dst src).1
        (DynArray.moveAssign h dst src).2.2
        = .error (CppError.domain_error uninitMsg) := by
  refine ⟨rfl, rfl, rfl, rfl, rfl, rfl, rfl, ?_, rfl⟩
  show DynArray.elems (DynArray.deallocate h dst) ⟨src.mem, src.n⟩
      = DynArray.elems h src
  have he : (⟨src.mem, src.n⟩ : DynArray T) = src := rfl
  rw [he]
  apply elems_congr
  intro id hid
  apply lookup_deallocate_ne
  rcases hsep with h1 | h1
  · rw [h1]; exact fun hc => Option.noConfusion hc
  · rw [hid] at h1
    exact h1

/-- Witness for C6 at a concrete heap and a concrete pair of arrays. -/
theorem c6_move_semantics_witness :
    DynArray.moveCtor (T := Nat) ⟨some 1, 2⟩ = (⟨some 1, 2⟩, ⟨none, 0⟩) :=
  (c6_move_semantics (T := Nat) ⟨[(0, [some 9]), (1, [some 7, some 8])], 2⟩
    ⟨some 0, 1⟩ ⟨some 1, 2⟩ (Or.inr (by decide))).1

/-- C7: range construction is exception safe: when the copy construction
of element k throws partway, the already-constructed copies are destroyed
(inside std::uninitialized_copy), the block is released by the catch, no
destructor runs on unconstructed slots, and the failure is re-signaled —
the heap's block list is exactly what it was before, so zero net live
elements and no leak; an allocate failure likewise leaves the heap
untouched. -/
theorem c7_range_ctor_safety (h : Heap T) (vals : List T) (k : Nat)
    (hwf : Heap.wfB h = true) (hk : k < vals.length) :
    (mkFromRange h vals true (some k)).2 = .error CppError.ctor_fail
    ∧ ((mkFromRange h vals true (some k)).1).blocks = h.blocks
    ∧ mkFromRange h vals false (some k) = (h, .error CppError.bad_alloc) := by
  refine ⟨?_, ?_, rfl⟩
  · simp [mkFromRange, hk]
  · simp only [mkFromRange, Bool.true_eq_false, if_false, hk, if_true, reduceIte]
    exact blocks_fresh_set_free h vals.length _ hwf

/-- Witness for C7 at a concrete range and failure index. -/
theorem c7_range_ctor_safety_witness :
    (mkFromRange (T := Nat) ⟨[], 0⟩ [3, 4] true (some 1)).2
        = .error CppError.ctor_fail
    ∧ ((mkFromRange (T := Nat) ⟨[], 0⟩ [3, 4] true (some 1)).1).blocks = [] :=
  ⟨(c7_range_ctor_safety (T := Nat) ⟨[], 0⟩ [3, 4] 1 (by decide) (by decide)).1,
   (c7_range_ctor_safety (T := Nat) ⟨[], 0⟩ [3, 4] 1 (by decide) (by decide)).2.1⟩

/-- C8: two AlignedAllocator instances compare equal iff their configured
alignments match, independently of the element-type parameters, and
operator!= is the negation of operator==. -/
theorem c8_allocator_equality (V1 V2 V3 V4 : Type) (a1 a2 : Nat) :
    (alignedAllocEq V1 V2 a1 a2 = true ↔ a1 = a2)
    ∧ alignedAllocNe V1 V2 a1 a2 = !(alignedAllocEq V1 V2 a1 a2)
    ∧ alignedAllocEq V1 V2 a1 a2 = alignedAllocEq V3 V4 a1 a2 := by
  refine ⟨?_, rfl, rfl⟩
  simp [alignedAllocEq]

/-- Witness for C8 at concrete element types and alignments. -/
theorem c8_allocator_equality_witness :
    alignedAllocEq Nat Bool 16 16 = true :=
  (c8_allocator_equality Nat Bool Unit Int 16 16).1.mpr rfl

/-- C9: AlignedAllocator::allocate(n) signals bad_alloc exactly when
n * sizeof(T) would exceed the maximum of the size type (the guard
n > max / sizeof(T) is equivalent); otherwise it computes the byte count
n * sizeof(T), which never exceeds the maximum, and the plain/aligned
branch choice does not change the outcome. -/
theorem c9_allocate_overflow (s M n : Nat) (b : Bool) (hs : 0 < s) :
    (alignedAllocate s M n b = .error CppError.bad_alloc ↔ M < n * s)
    ∧ (n * s ≤ M → alignedAllocate s M n b = .ok (n * s))
    ∧ alignedAllocate s M n b = alignedAllocate s M n (!b) := by
  have hdiv : (M / s < n) ↔ M < n * s := Nat.div_lt_iff_lt_mul hs
  unfold alignedAllocate
  by_cases hc : M / s < n
  · have hm : M < n * s := hdiv.mp hc
    refine ⟨by simp [hc, hm], ?_, by simp [hc]⟩
    intro hle
    exact absurd hm (by omega)
  · have hm : ¬M < n * s := fun hx => hc (hdiv.mpr hx)
    refine ⟨?_, ?_, ?_⟩
    · cases b <;> simp [hc, hm]
    · intro hle; cases b <;> simp [hc]
    · cases b <;> simp [hc]

/-- Witness for C9: with sizeof(T) = 4 and a maximum of 100, requesting
30 elements overflows and signals bad_alloc; 25 elements yields exactly
100 bytes. -/
theorem c9_allocate_overflow_witness :
    alignedAllocate 4 100 30 true = .error CppError.bad_alloc
    ∧ alignedAllocate 4 100 25 true = .ok 100 :=
  ⟨(c9_allocate_overflow 4 100 30 true (by decide)).1.mpr (by decide),
   (c9_allocate_overflow 4 100 25 true (by decide)).2.1 (by decide)⟩

/-- C1 (code bug, failing input): copy assignment dst = src with dst =
[5] (block 0), src = [7, 8] (block 1), and the copy construction of
element 1 throwing.  operator= (dyn_array.h lines 176-187) has no
try/catch around std::uninitialized_copy, so the failure propagates but
the tentatively allocated block (id 2) is NOT released back to the
allocator — it is still in the heap with every slot raw — and the
destination is left with mem_ = that block and n_ = 2, a residual
invalid state (spec invariant 1 fails on it). -/
theorem c1_copy_assign_fail_leak :
    DynArray.copyAssign (T := Nat) ⟨[(0, [some 5]), (1, [some 7, some 8])], 2⟩
        ⟨some 0, 1⟩ ⟨some 1, 2⟩ true (some 1)
      = (⟨[(1, [some 7, some 8]), (2, [none, none])], 3⟩, ⟨some 2, 2⟩,
          some CppError.ctor_fail)
    ∧ Heap.lookup (T := Nat) ⟨[(1, [some 7, some 8]), (2, [none, none])], 3⟩ 2
      = some [none, none]
    ∧ DynArray.invB (T := Nat) ⟨[(1, [some 7, some 8]), (2, [none, none])], 3⟩
        ⟨some 2, 2⟩ = false := by
  refine ⟨by decide, by decide, by decide⟩

/-- C2 (code bug, failing input): reset(3) on the array [1, 2].  If
allocate throws, deallocate() has already freed the old block but left
mem_ pointing at it and the code has set n_ = 3: the array is left with
a dangling non-null pointer and size 3, not the empty/uninitialized
state.  If instead the default construction of element 1 throws, the
array is left with mem_ = the fresh block holding one live element and
n_ = 3.  Neither failure leaves mem_ = null, n_ = 0. -/
theorem c2_reset_fail_not_empty :
    DynArray.reset (T := Nat) ⟨[(0, [some 1, some 2])], 1⟩ ⟨some 0, 2⟩ 3 0
        false none
      = (⟨[], 1⟩, ⟨some 0, 3⟩, some CppError.bad_alloc)
    ∧ (⟨some 0, 3⟩ : DynArray Nat).mem ≠ none
    ∧ (⟨some 0, 3⟩ : DynArray Nat).n ≠ 0
    ∧ Heap.lookup (T := Nat) ⟨[], 1⟩ 0 = none
    ∧ DynArray.reset (T := Nat) ⟨[(0, [some 1, some 2])], 1⟩ ⟨some 0, 2⟩ 3 0
        true (some 1)
      = (⟨[(1, [some 0, none, none])], 2⟩, ⟨some 1, 3⟩, some CppError.ctor_fail)
    ∧ (⟨some 1, 3⟩ : DynArray Nat).mem ≠ none := by
  refine ⟨by decide, by decide, by decide, by decide, by decide, by decide⟩

/-- C3 (code bug, failing input): the sized constructor with n = 3 and
the construction of element 1 throwing (dyn_array.h lines 155-166).  The
construction loop has no try/catch, so the failure is re-signaled with
element 0 still live inside the still-allocated block: the
already-constructed element is never destroyed and the storage is never
released — both leak. -/
theorem c3_sized_ctor_leak :
    mkSized (T := Nat) ⟨[], 0⟩ 3 7 true (some 1)
      = (⟨[(0, [some 7, none, none])], 1⟩, .error CppError.ctor_fail)
    ∧ Heap.lookup (T := Nat) ⟨[(0, [some 7, none, none])], 1⟩ 0
      = some [some 7, none, none] := by
  refine ⟨by decide, by decide⟩

/-- C5 (code bug, failing input): the structural invariant (null pointer
with size 0, or an allocated block of exactly size live elements) holds
for the array [1, 2], but after reset(3) whose allocation fails the
array's state violates it: mem_ still names the already-released block
and n_ = 3 with no live element anywhere. -/
theorem c5_invariant_violated :
    DynArray.invB (T := Nat) ⟨[(0, [some 1, some 2])], 1⟩ ⟨some 0, 2⟩ = true
    ∧ DynArray.invB
        (DynArray.reset (T := Nat) ⟨[(0, [some 1, some 2])], 1⟩ ⟨some 0, 2⟩ 3 0
          false none).1
        (DynArray.reset (T := Nat) ⟨[(0, [some 1, some 2])], 1⟩ ⟨some 0, 2⟩ 3 0
          false none).2.1
      = false := by
  refine ⟨by decide, by decide⟩

/-- C10 (code bug, failing input): self copy-assignment a = a on the
array [1, 2].  operator= has no self-assignment guard: deallocate()
destroys a's two elements and frees its block, then a fresh block is
allocated and uninitialized_copy copies the array FROM ITSELF — reading
the fresh block's raw slots (that.begin() is re-read after mem_ was
reassigned).  The original values are unrecoverable (elems of the result
is none, not some [1, 2]): self-assignment is not value-preserving. -/
theorem c10_self_assign_destroys :
    DynArray.elems (T := Nat) ⟨[(0, [some 1, some 2])], 1⟩ ⟨some 0, 2⟩
      = some [1, 2]
    ∧ DynArray.copyAssignSelf (T := Nat) ⟨[(0, [some 1, some 2])], 1⟩ ⟨some 0, 2⟩
      = (⟨[(1, [none, none])], 2⟩, ⟨some 1, 2⟩, some CppError.undefined)
    ∧ DynArray.elems (T := Nat) ⟨[(1, [none, none])], 2⟩ ⟨some 1, 2⟩ = none := by
  refine ⟨by decide, by decide, by decide⟩

/-- C4 counterexample: on the empty/uninitialized array (the moved-from
state: null mem_, size 0), check_range reports std::domain_error with
the fixed message "uninitialized DynArray" — a DISTINCT error kind from
std::out_of_range, carrying neither the offending index nor the size —
so the claim that such access is folded into the same out-of-range
taxonomy (with index and size in the detail) is false at index 0. -/
theorem c4_uninit_distinct_kind :
    DynArray.check_range (T := Nat) ⟨none, 0⟩ 0
      = some (CppError.domain_error uninitMsg)
    ∧ CppError.isOutOfRange (CppError.domain_error uninitMsg) = false := by
  refine ⟨by decide, by decide⟩

/-- C4 (amended): operator[] and at are uniformly checked (identical
behavior on every input); on an array with non-null storage (including
size 0), any index at or past the size yields std::out_of_range whose
message names the offending index and the current size, and the access
yields that failure rather than any value (nothing is clamped or
wrapped); on an array in the empty/uninitialized state (null storage)
the access yields the distinct std::domain_error "uninitialized
DynArray", without index or size detail. -/
theorem c4_bounds_checking (h : Heap T) (a : DynArray T) (i : Nat) :
    DynArray.atIdx h a i = DynArray.getIdx h a i
    ∧ (a.mem = none →
        DynArray.check_range a i = some (CppError.domain_error uninitMsg))
    ∧ (a.mem ≠ none → a.n ≤ i →
        DynArray.check_range a i = some (CppError.out_of_range (rangeMsg i a.n))
        ∧ DynArray.getIdx h a i
            = .error (CppError.out_of_range (rangeMsg i a.n))
        ∧ DynArray.atIdx h a i
            = .error (CppError.out_of_range (rangeMsg i a.n))) := by
  refine ⟨rfl, ?_, ?_⟩
  · intro hm
    simp [DynArray.check_range, hm]
  · intro hm hi
    have hge : i ≥ a.n := hi
    have hcr : DynArray.check_range a i
        = some (CppError.out_of_range (rangeMsg i a.n)) := by
      simp [DynArray.check_range, hm, hge]
    exact ⟨hcr, by simp [DynArray.getIdx, hcr], by simp [DynArray.atIdx, hcr]⟩

/-- Witness for the amended C4: a size-2 array indexed at 5 reports
out_of_range naming index 5 and size 2. -/
theorem c4_bounds_checking_witness :
    DynArray.check_range (T := Nat) ⟨some 0, 2⟩ 5
      = some (CppError.out_of_range (rangeMsg 5 2)) :=
  ((c4_bounds_checking (T := Nat) ⟨[(0, [some 1, some 2])], 1⟩ ⟨some 0, 2⟩ 5).2.2
    (by decide) (by decide)).1

end SstCpputils
